import Mathlib

/-! A shallow embedding of the cores of two Postfix daemons: the address
verification server (src/postfix/src/verify/verify.c) and the proxymap
table-proxy server. Byte strings are modelled as lists of characters,
C longs and ints as unbounded integers (the quantities involved are
wall-clock seconds and small status codes, far from overflow). -/

abbrev Str := List Char

/-- Recipient status codes. Modelled from the spec: the numeric values of
DEL_RCPT_STAT_OK / DEFER / BOUNCE / TODO come from a global header that is
not among the sources here; the development relies only on them being four
distinct nonnegative one-digit decimal codes with OK singled out. -/
def DEL_RCPT_STAT_OK : Int := 0

/-- Modelled from the spec: code for a temporarily undeliverable address. -/
def DEL_RCPT_STAT_DEFER : Int := 4

/-- Modelled from the spec: code for a permanently undeliverable address. -/
def DEL_RCPT_STAT_BOUNCE : Int := 5

/-- Modelled from the spec: code for an address whose probe is pending. -/
def DEL_RCPT_STAT_TODO : Int := 6

/-- Top-level reply status of the verify server (VRFY_STAT_OK / BAD / FAIL
of verify_clnt.h). -/
inductive VrfyStat where
  | ok
  | bad
  | fail
deriving DecidableEq

/-- Reply status of the proxymap server (PROXY_STAT_* of dict_proxy.h). -/
inductive ProxyStat where
  | ok
  | nokey
  | retry
  | bad
  | deny
deriving DecidableEq

/-- dict_get on an association-list model of a Postfix DICT. -/
def dict_get {α : Type} : List (Str × α) → Str → Option α
  | [], _ => none
  | (k, v) :: t, a => if k = a then some v else dict_get t a

/-- dict_put with DICT_FLAG_DUP_REPLACE semantics: replace the existing
binding for the key, or append a fresh one. -/
def dict_put {α : Type} : List (Str × α) → Str → α → List (Str × α)
  | [], a, v => [(a, v)]
  | (k, w) :: t, a, v => if k = a then (a, v) :: t else (k, w) :: dict_put t a v

/-- dict_del removes the binding for a key. -/
def dict_del {α : Type} : List (Str × α) → Str → List (Str × α)
  | [], _ => []
  | (k, w) :: t, a => if k = a then dict_del t a else (k, w) :: dict_del t a

/-- Decimal digits of a natural number, most significant first. The first
argument is fuel so that the recursion is structural; any fuel at least n
gives the digits of n. -/
def natToDecAux : Nat → Nat → Str
  | 0, _ => []
  | _ + 1, 0 => []
  | fuel + 1, n + 1 => natToDecAux fuel ((n + 1) / 10) ++ [Nat.digitChar ((n + 1) % 10)]

/-- Decimal rendering of a natural number, as printf %lu produces it. -/
def natToDec (n : Nat) : Str := if n = 0 then ['0'] else natToDecAux n n

/-- Decimal rendering of a long, as printf %ld produces it. -/
def intToDec (i : Int) : Str :=
  if i < 0 then '-' :: natToDec i.natAbs else natToDec i.toNat

/-- The digit-accumulating loop shared by atoi and atol. -/
def atoiNat (s : Str) : Nat :=
  (s.takeWhile (fun c => c.isDigit)).foldl (fun a c => 10 * a + (c.toNat - 48)) 0

/-- Sign handling of atoi/atol, applied after white space was skipped. -/
def atoiSigned : Str → Int
  | [] => 0
  | c :: t =>
    if c = '-' then -(atoiNat t : Int)
    else if c = '+' then (atoiNat t : Int)
    else (atoiNat (c :: t) : Int)

/-- atoi(3)/atol(3): skip leading white space and an optional sign, then
consume decimal digits; a string with no leading digits yields 0. Overflow
is ignored (entry fields are wall-clock seconds, far below LONG_MAX). -/
def atoi (s : Str) : Int := atoiSigned (s.dropWhile (fun c => c.isWhitespace))

/-- verify_make_entry - construct the table entry
"status:probed:updated:text" (verify.c lines 201-205). -/
def verify_make_entry (status probed updated : Int) (text : Str) : Str :=
  intToDec status ++ ':' :: (intToDec probed ++ ':' :: (intToDec updated ++ ':' :: text))

/-- split_at(3): break the string at the first occurrence of the character,
yielding the part before it and the rest after it; none when absent. -/
def split_at : Str → Char → Option (Str × Str)
  | [], _ => none
  | c :: t, ch =>
    if c = ch then some ([], t)
    else (split_at t ch).map (fun p => (c :: p.1, p.2))

/-- verify_parse_entry - parse "status:probed:updated:text" (verify.c lines
209-230). The C validity operand (probed || updated) tests the two output
pointers, which are never null, so only the four-way status test can
reject; the embedding reflects that by omitting the vacuous operand. -/
def verify_parse_entry (buf : Str) : Option (Int × Int × Int × Str) :=
  match split_at buf ':' with
  | none => none
  | some (status_text, rest1) =>
    match split_at rest1 ':' with
    | none => none
    | some (probed_text, rest2) =>
      match split_at rest2 ':' with
      | none => none
      | some (updated_text, text) =>
        let probed := atoi probed_text
        let updated := atoi updated_text
        let status := atoi status_text
        if status = DEL_RCPT_STAT_OK ∨ status = DEL_RCPT_STAT_DEFER
            ∨ status = DEL_RCPT_STAT_BOUNCE ∨ status = DEL_RCPT_STAT_TODO
        then some (status, probed, updated, text)
        else none

/-- STATUS_FROM_RAW_ENTRY(e) = atoi(e): read the leading status field of a
raw entry without parsing the whole record (verify.c line 197). -/
def status_from_raw_entry (e : Str) : Int := atoi e

lemma digitChar_facts (d : Nat) (hd : d < 10) :
    (Nat.digitChar d).isDigit = true ∧ (Nat.digitChar d).toNat = 48 + d ∧
    Nat.digitChar d ≠ ':' ∧ (Nat.digitChar d).isWhitespace = false ∧
    Nat.digitChar d ≠ '-' ∧ Nat.digitChar d ≠ '+' := by
  interval_cases d <;> exact ⟨by decide, by decide, by decide, by decide, by decide, by decide⟩

lemma natToDecAux_eq_digits (fuel n : Nat) (h : n ≤ fuel) :
    natToDecAux fuel n = ((Nat.digits 10 n).map Nat.digitChar).reverse := by
  induction fuel generalizing n with
  | zero =>
    interval_cases n
    simp [natToDecAux]
  | succ f ih =>
    cases n with
    | zero => simp [natToDecAux]
    | succ m =>
      rw [natToDecAux]
      rw [Nat.digits_def' (b := 10) (by norm_num) (Nat.succ_pos m)]
      rw [List.map_cons, List.reverse_cons]
      rw [ih ((m + 1) / 10) (by
        have h1 : (m + 1) / 10 < m + 1 := Nat.div_lt_self (Nat.succ_pos m) (by norm_num)
        omega)]

lemma natToDec_eq_digits (n : Nat) (h0 : n ≠ 0) :
    natToDec n = ((Nat.digits 10 n).map Nat.digitChar).reverse := by
  unfold natToDec
  rw [if_neg h0, natToDecAux_eq_digits n n le_rfl]

lemma natToDec_mem (n : Nat) (c : Char) (hc : c ∈ natToDec n) :
    c.isDigit = true ∧ c ≠ ':' ∧ c.isWhitespace = false ∧ c ≠ '-' ∧ c ≠ '+' := by
  by_cases h0 : n = 0
  · subst h0
    simp [natToDec] at hc
    subst hc
    exact ⟨by decide, by decide, by decide, by decide, by decide⟩
  · rw [natToDec_eq_digits n h0] at hc
    rw [List.mem_reverse, List.mem_map] at hc
    obtain ⟨d, hd, rfl⟩ := hc
    have hlt : d < 10 := Nat.digits_lt_base (by norm_num) hd
    obtain ⟨h1, _, h3, h4, h5, h6⟩ := digitChar_facts d hlt
    exact ⟨h1, h3, h4, h5, h6⟩

lemma foldl_digitChars (L : List Nat) (hL : ∀ d ∈ L, d < 10) (a : Nat) :
    ((L.map Nat.digitChar).reverse).foldl (fun x c => 10 * x + (c.toNat - 48)) a
      = a * 10 ^ L.length + Nat.ofDigits 10 L := by
  induction L generalizing a with
  | nil => simp
  | cons d T ih =>
    rw [List.map_cons, List.reverse_cons, List.foldl_append]
    rw [ih (fun x hx => hL x (List.mem_cons_of_mem d hx))]
    have hd := hL d (List.mem_cons_self d T)
    obtain ⟨_, htn, _, _, _, _⟩ := digitChar_facts d hd
    simp only [List.foldl_cons, List.foldl_nil, htn, Nat.ofDigits_cons,
      List.length_cons]
    ring_nf
    omega

lemma takeWhile_eq_self {p : Char → Bool} :
    ∀ {l : Str}, (∀ c ∈ l, p c = true) → l.takeWhile p = l
  | [], _ => rfl
  | c :: t, h => by
    rw [List.takeWhile_cons, if_pos (h c (List.mem_cons_self c t))]
    rw [takeWhile_eq_self (fun x hx => h x (List.mem_cons_of_mem c hx))]

lemma atoiNat_natToDec (n : Nat) : atoiNat (natToDec n) = n := by
  by_cases h0 : n = 0
  · subst h0; decide
  · unfold atoiNat
    rw [takeWhile_eq_self (fun c hc => (natToDec_mem n c hc).1)]
    rw [natToDec_eq_digits n h0]
    rw [foldl_digitChars _ (fun d hd => Nat.digits_lt_base (by norm_num) hd) 0]
    simp [Nat.ofDigits_digits]

lemma natToDec_ne_nil (n : Nat) : natToDec n ≠ [] := by
  by_cases h0 : n = 0
  · subst h0; decide
  · rw [natToDec_eq_digits n h0]
    simp [Nat.digits_ne_nil_iff_ne_zero.mpr h0]

lemma atoi_natToDec (n : Nat) : atoi (natToDec n) = (n : Int) := by
  obtain ⟨c, t, hct⟩ : ∃ c t, natToDec n = c :: t := by
    cases h : natToDec n with
    | nil => exact absurd h (natToDec_ne_nil n)
    | cons c t => exact ⟨c, t, rfl⟩
  have hmem : c ∈ natToDec n := by rw [hct]; exact List.mem_cons_self c t
  obtain ⟨_, _, hws, hminus, hplus⟩ := natToDec_mem n c hmem
  unfold atoi
  rw [hct, List.dropWhile_cons, if_neg (by simp [hws])]
  rw [atoiSigned, if_neg hminus, if_neg hplus, ← hct, atoiNat_natToDec]

lemma atoi_intToDec (i : Int) : atoi (intToDec i) = i := by
  unfold intToDec
  by_cases hlt : i < 0
  · rw [if_pos hlt]
    unfold atoi
    rw [List.dropWhile_cons, if_neg (by decide)]
    have hs : atoiSigned ('-' :: natToDec i.natAbs) = -(atoiNat (natToDec i.natAbs) : Int) := by
      simp [atoiSigned]
    rw [hs, atoiNat_natToDec, Int.ofNat_natAbs_of_nonpos (le_of_lt hlt), neg_neg]
  · rw [if_neg hlt, atoi_natToDec, Int.toNat_of_nonneg (not_lt.mp hlt)]

lemma intToDec_ne_colon (i : Int) : ∀ c ∈ intToDec i, c ≠ ':' := by
  intro c hc
  unfold intToDec at hc
  by_cases hlt : i < 0
  · rw [if_pos hlt] at hc
    rcases List.mem_cons.mp hc with h | h
    · subst h; decide
    · exact (natToDec_mem _ c h).2.1
  · rw [if_neg hlt] at hc
    exact (natToDec_mem _ c hc).2.1

lemma split_at_append (a b : Str) (ch : Char) (ha : ∀ c ∈ a, c ≠ ch) :
    split_at (a ++ ch :: b) ch = some (a, b) := by
  induction a with
  | nil => simp [split_at]
  | cons c t ih =>
    rw [List.cons_append, split_at]
    rw [if_neg (ha c (List.mem_cons_self c t))]
    rw [ih (fun x hx => ha x (List.mem_cons_of_mem c hx))]
    rfl

lemma parse_make_entry (status probed updated : Int) (text : Str)
    (hs : status = DEL_RCPT_STAT_OK ∨ status = DEL_RCPT_STAT_DEFER
        ∨ status = DEL_RCPT_STAT_BOUNCE ∨ status = DEL_RCPT_STAT_TODO) :
    verify_parse_entry (verify_make_entry status probed updated text)
      = some (status, probed, updated, text) := by
  unfold verify_make_entry verify_parse_entry
  simp only [split_at_append _ _ _ (intToDec_ne_colon status),
    split_at_append _ _ _ (intToDec_ne_colon probed),
    split_at_append _ _ _ (intToDec_ne_colon updated), atoi_intToDec]
  rw [if_pos hs]

/-- PROBE_TTL: a probe is assumed lost after 1000 seconds (verify.c 337). -/
def PROBE_TTL : Int := 1000

/-- The verify server's tunables: var_verify_pos_exp, var_verify_pos_try,
var_verify_neg_exp, var_verify_neg_try and var_verify_neg_cache. -/
structure VerifyCfg where
  pos_exp : Int
  pos_try : Int
  neg_exp : Int
  neg_try : Int
  neg_cache : Bool
deriving DecidableEq

/-- The persistent verify map: address to raw serialized entry. -/
abbrev VerifyMap := List (Str × Str)

/-- The working record of a QUERY: the locals addr_status, probed, updated
and text of verify_query_service. -/
structure WorkRec where
  status : Int
  probed : Int
  updated : Int
  text : Str
deriving DecidableEq

/-- The constant reply text of the fresh-probe default record. -/
def progressText : Str := ("Address verification in progress").toList

/-- The default working record installed on a query miss (verify.c 347-350). -/
def todo_work : WorkRec := ⟨DEL_RCPT_STAT_TODO, 0, 0, progressText⟩

/-- Parse the raw stored value into a working record; none when the entry
is absent or verify_parse_entry rejects it. -/
def parse_work : Option Str → Option WorkRec
  | none => none
  | some r =>
    match verify_parse_entry r with
    | none => none
    | some (s, p, u, t) => some ⟨s, p, u, t⟩

/-- POSITIVE_ENTRY_EXPIRED / NEGATIVE_ENTRY_EXPIRED guarded by the
PROBE_TTL test (verify.c 333-346): a stored record is stale when the last
probe is old and its own expiry time has passed. -/
def entry_expired (cfg : VerifyCfg) (now : Int) (w : WorkRec) : Bool :=
  decide (now - w.probed > PROBE_TTL ∧
    ((w.status = DEL_RCPT_STAT_OK ∧ w.updated + cfg.pos_exp < now) ∨
     (w.status ≠ DEL_RCPT_STAT_OK ∧ w.updated + cfg.neg_exp < now)))

/-- The miss condition of verify_query_service lines 339-346: entry absent,
malformed, or stale. -/
def query_miss (cfg : VerifyCfg) (now : Int) (raw : Option Str) : Bool :=
  match parse_work raw with
  | none => true
  | some w => entry_expired cfg now w

/-- The working record a QUERY ends up with after lines 339-353: the parsed
entry when usable, the TODO default otherwise. -/
def query_work (cfg : VerifyCfg) (now : Int) (raw : Option Str) : WorkRec :=
  match parse_work raw with
  | none => todo_work
  | some w => if entry_expired cfg now w then todo_work else w

/-- POSITIVE_REFRESH_NEEDED / NEGATIVE_REFRESH_NEEDED guarded by the
PROBE_TTL test (verify.c 378-386). -/
def refresh_test (cfg : VerifyCfg) (now : Int) (w : WorkRec) : Bool :=
  decide (now - w.probed > PROBE_TTL ∧
    ((w.status = DEL_RCPT_STAT_OK ∧ w.updated + cfg.pos_try < now) ∨
     (w.status ≠ DEL_RCPT_STAT_OK ∧ w.updated + cfg.neg_try < now)))

/-- Everything observable about one run of verify_query_service: the reply
printed to the client, the working record, whether the stale entry was
deleted, the map between the miss step and the refresh step, whether a
probe was submitted (post_mail_fopen reached), whether the refreshed entry
was written back, and the final map. -/
structure QueryTrace where
  reply_status : VrfyStat
  reply_addr_status : Int
  reply_text : Str
  work : WorkRec
  did_delete : Bool
  map_mid : VerifyMap
  refresh_needed : Bool
  did_put : Bool
  map_out : VerifyMap
deriving DecidableEq

/-- verify_query_service (verify.c 300-410) for a request whose address
attribute scanned successfully. probe_ok is the outcome of the synchronous
probe submission (post_mail_fopen returning a stream and post_mail_fclose
returning 0); it is only consulted when a probe is actually submitted. -/
def verify_query_service (cfg : VerifyCfg) (m : VerifyMap) (now : Int)
    (addr : Str) (probe_ok : Bool) : QueryTrace :=
  let raw := dict_get m addr
  let miss := query_miss cfg now raw
  let work := query_work cfg now raw
  let did_delete := miss && raw.isSome && !cfg.neg_cache
  let map_mid := if did_delete then dict_del m addr else m
  let refresh := refresh_test cfg now work
  let did_put := refresh && probe_ok && (decide (work.updated ≠ 0) || cfg.neg_cache)
  let map_out :=
    if did_put
    then dict_put map_mid addr (verify_make_entry work.status now work.updated work.text)
    else map_mid
  ⟨VrfyStat.ok, work.status, work.text, work, did_delete, map_mid, refresh, did_put, map_out⟩

/-- verify_stat2name (verify.c 234-243): the name of a recipient status, or
none when the status is not a valid UPDATE status. -/
def verify_stat2name (addr_status : Int) : Option Str :=
  if addr_status = DEL_RCPT_STAT_OK then some (("deliverable").toList)
  else if addr_status = DEL_RCPT_STAT_DEFER then some (("undeliverable").toList)
  else if addr_status = DEL_RCPT_STAT_BOUNCE then some (("undeliverable").toList)
  else none

/-- The write-through condition of verify_update_service lines 277-279:
the update is applied unless it is a non-OK result for an address whose
stored raw entry has status OK. -/
def raw_status_ok (m : VerifyMap) (addr : Str) : Bool :=
  match dict_get m addr with
  | none => false
  | some raw => decide (status_from_raw_entry raw = DEL_RCPT_STAT_OK)

/-- verify_update_service (verify.c 247-296) for a request whose three
attributes scanned successfully: reply status and resulting map. -/
def verify_update_service (m : VerifyMap) (now : Int) (addr : Str)
    (addr_status : Int) (text : Str) : VrfyStat × VerifyMap :=
  match verify_stat2name addr_status with
  | none => (VrfyStat.bad, m)
  | some _ =>
    if addr_status = DEL_RCPT_STAT_OK ∨ raw_status_ok m addr = false
    then (VrfyStat.ok, dict_put m addr (verify_make_entry addr_status 0 now text))
    else (VrfyStat.ok, m)

/-- One framed request to the verify server, with the result of the
attribute scan made explicit: none models an attr_scan that failed. -/
inductive VerifyReq where
  | update (scan : Option (Str × Int × Str))
  | query (scan : Option Str) (probe_ok : Bool)
  | other (name : Str)

/-- verify_service (verify.c 414-447): dispatch on the request name; the
returned list holds the top-level status of every reply frame printed to
the client (empty when nothing is printed). -/
def verify_service (cfg : VerifyCfg) (m : VerifyMap) (now : Int) :
    VerifyReq → List VrfyStat × VerifyMap
  | VerifyReq.update none => ([], m)
  | VerifyReq.update (some (addr, addr_status, text)) =>
    let r := verify_update_service m now addr addr_status text
    ([r.1], r.2)
  | VerifyReq.query none _ => ([], m)
  | VerifyReq.query (some addr) probe_ok =>
    let t := verify_query_service cfg m now addr probe_ok
    ([t.reply_status], t.map_out)
  | VerifyReq.other _ => ([VrfyStat.bad], m)

/-- Whether the pattern is a leading pattern of the string: the
strncmp(s, pat, strlen(pat)) == 0 test of proxymap.c. -/
def hasPfx : Str → Str → Bool
  | [], _ => true
  | _ :: _, [] => false
  | p :: ps, c :: cs => p = c && hasPfx ps cs

/-- PROXY_COLON, the literal "proxy:" (DICT_TYPE_PROXY followed by a colon). -/
def proxyColon : Str := ['p', 'r', 'o', 'x', 'y', ':']

/-- One stripping round per unit of fuel: drop a leading "proxy:" while one
is present. Structural in the fuel so that it computes. -/
def strip_allAux : Nat → Str → Str
  | 0, s => s
  | f + 1, s => if hasPfx proxyColon s then strip_allAux f (s.drop 6) else s

/-- Strip every leading "proxy:" from a table reference: the while loop of
proxy_map_find (part_002 lines 199-200) and the do/while loop of
post_jail_init (lines 360-362). The length of the string bounds the number
of rounds, so it is enough fuel. -/
def strip_all (s : Str) : Str := strip_allAux s.length s

/-- The separator set " \t\r\n" of post_jail_init. -/
def isSepChar (c : Char) : Bool := c = ' ' || c = '\t' || c = '\r' || c = '\n'

/-- mystrtok: cut the string into the maximal runs of non-separator
characters. The accumulator carries the current token reversed. -/
def tokenizeAux : Str → Str → List Str
  | [], acc => if acc = [] then [] else [acc.reverse]
  | c :: t, acc =>
    if isSepChar c then
      if acc = [] then tokenizeAux t [] else acc.reverse :: tokenizeAux t []
    else tokenizeAux t (c :: acc)

/-- Tokenize a configuration value on white space, as the mystrtok loop of
post_jail_init does. -/
def tokenize (s : Str) : List Str := tokenizeAux s []

/-- One round of the allow-list loop of post_jail_init (part_002 lines
357-366): tokens that do not start with "proxy:" are skipped; the rest are
stripped of all leading "proxy:" and entered when they keep an inner colon
and are not already present. -/
def insert_tok (acc : List Str) (tok : Str) : List Str :=
  if hasPfx proxyColon tok = false then acc
  else
    let c := strip_all tok
    if ':' ∈ c ∧ c ∉ acc then acc ++ [c] else acc

/-- The pre-approved list of proxied tables built at post-jail init from
the proxy_read_maps configuration value. -/
def build_allow_list (cfg : Str) : List Str := (tokenize cfg).foldl insert_tok []

/-- The gate of proxy_map_find (part_002 lines 199-209): canonicalize by
stripping leading "proxy:" layers, reject a form without an inner colon as
BAD, an unapproved form as DENY, and accept the rest. -/
def proxy_map_acl (allow : List Str) (map_type_name : Str) : ProxyStat :=
  let c := strip_all map_type_name
  if ':' ∉ c then ProxyStat.bad
  else if c ∉ allow then ProxyStat.deny
  else ProxyStat.ok

/-- An open table handle; the only attribute the proxy reports back is the
backing store's capability flag word (dict->flags). -/
structure DictHandle where
  flags : Int
deriving DecidableEq

/-- The per-process state of the proxymap server: the handle cache keyed by
"type:name:octal-flags" and a count of dict_open calls performed. -/
structure ProxyState where
  handles : List (Str × DictHandle)
  opens : Nat
deriving DecidableEq

/-- Modelled from the spec: dict_handle (dict library, not under src/)
looks the composite key up in the in-process handle registry. -/
def dict_handle (st : ProxyState) (key : Str) : Option DictHandle :=
  dict_get st.handles key

/-- Modelled from the spec: dict_register (dict library, not under src/)
binds the handle under the composite key in the registry, keeping a single
entry per key. -/
def dict_register (st : ProxyState) (key : Str) (d : DictHandle) : ProxyState :=
  { st with handles := dict_put st.handles key d }

/-- Octal digits of a flag word, most significant first, as %o prints it. -/
def natToOctAux : Nat → Nat → Str
  | 0, _ => []
  | _ + 1, 0 => []
  | fuel + 1, n + 1 => natToOctAux fuel ((n + 1) / 8) ++ [Nat.digitChar ((n + 1) % 8)]

/-- Octal rendering of a flag word, as vstring_sprintf %o produces it. -/
def natToOct (n : Nat) : Str := if n = 0 then ['0'] else natToOctAux n n

/-- The composite handle-cache key "type:name:octal-flags" built at
part_002 lines 214-215. -/
def composite_key (c : Str) (flags : Nat) : Str := c ++ ':' :: natToOct flags

/-- proxy_map_find (part_002 lines 184-222): allow-list gate, then handle
cache lookup with lazy open. env models dict_open restricted to read-only
mode: the handle the dict layer yields for a table and flag word. Returns
the handle (none on BAD or DENY), the status and the new state. -/
def proxy_map_find (env : Str → Nat → DictHandle) (allow : List Str)
    (st : ProxyState) (map_type_name : Str) (request_flags : Nat) :
    Option DictHandle × ProxyStat × ProxyState :=
  let c := strip_all map_type_name
  match proxy_map_acl allow map_type_name with
  | ProxyStat.bad => (none, ProxyStat.bad, st)
  | ProxyStat.deny => (none, ProxyStat.deny, st)
  | _ =>
    let key := composite_key c request_flags
    match dict_handle st key with
    | some d => (some d, ProxyStat.ok, dict_register st key d)
    | none =>
      let d := env c request_flags
      (some d, ProxyStat.ok,
        dict_register { st with opens := st.opens + 1 } key d)

/-- proxymap_open_service (part_002 lines 267-298): reply is the status and
the reported capability flags; a failed attribute scan is a BAD reply. -/
def proxymap_open_service (env : Str → Nat → DictHandle) (allow : List Str)
    (st : ProxyState) (scan : Option (Str × Nat)) :
    (ProxyStat × Int) × ProxyState :=
  match scan with
  | none => ((ProxyStat.bad, 0), st)
  | some (request_map, request_flags) =>
    match proxy_map_find env allow st request_map request_flags with
    | (none, stat, st') => ((stat, 0), st')
    | (some d, _, st') => ((ProxyStat.ok, d.flags), st')

lemma dict_get_put_self {α : Type} (l : List (Str × α)) (k : Str) (v : α) :
    dict_get (dict_put l k v) k = some v := by
  induction l with
  | nil => simp [dict_put, dict_get]
  | cons p t ih =>
    obtain ⟨k', w⟩ := p
    by_cases h : k' = k
    · simp [dict_put, h, dict_get]
    · simp [dict_put, h, dict_get, ih]

lemma vqs_work (cfg : VerifyCfg) (m : VerifyMap) (now : Int) (addr : Str) (pr : Bool) :
    (verify_query_service cfg m now addr pr).work = query_work cfg now (dict_get m addr) := rfl

lemma vqs_reply_addr_status (cfg : VerifyCfg) (m : VerifyMap) (now : Int) (addr : Str) (pr : Bool) :
    (verify_query_service cfg m now addr pr).reply_addr_status
      = (query_work cfg now (dict_get m addr)).status := rfl

lemma vqs_reply_text (cfg : VerifyCfg) (m : VerifyMap) (now : Int) (addr : Str) (pr : Bool) :
    (verify_query_service cfg m now addr pr).reply_text
      = (query_work cfg now (dict_get m addr)).text := rfl

lemma vqs_refresh (cfg : VerifyCfg) (m : VerifyMap) (now : Int) (addr : Str) (pr : Bool) :
    (verify_query_service cfg m now addr pr).refresh_needed
      = refresh_test cfg now (query_work cfg now (dict_get m addr)) := rfl

lemma vqs_did_delete (cfg : VerifyCfg) (m : VerifyMap) (now : Int) (addr : Str) (pr : Bool) :
    (verify_query_service cfg m now addr pr).did_delete
      = (query_miss cfg now (dict_get m addr) && (dict_get m addr).isSome && !cfg.neg_cache) := rfl

lemma vqs_did_put (cfg : VerifyCfg) (m : VerifyMap) (now : Int) (addr : Str) (pr : Bool) :
    (verify_query_service cfg m now addr pr).did_put
      = (refresh_test cfg now (query_work cfg now (dict_get m addr)) && pr
          && (decide ((query_work cfg now (dict_get m addr)).updated ≠ 0) || cfg.neg_cache)) := rfl

lemma vqs_map_mid (cfg : VerifyCfg) (m : VerifyMap) (now : Int) (addr : Str) (pr : Bool) :
    (verify_query_service cfg m now addr pr).map_mid
      = (if (verify_query_service cfg m now addr pr).did_delete then dict_del m addr else m) := rfl

lemma vqs_map_out (cfg : VerifyCfg) (m : VerifyMap) (now : Int) (addr : Str) (pr : Bool) :
    (verify_query_service cfg m now addr pr).map_out
      = (if (verify_query_service cfg m now addr pr).did_put
         then dict_put (verify_query_service cfg m now addr pr).map_mid addr
           (verify_make_entry (query_work cfg now (dict_get m addr)).status now
             (query_work cfg now (dict_get m addr)).updated
             (query_work cfg now (dict_get m addr)).text)
         else (verify_query_service cfg m now addr pr).map_mid) := rfl

lemma parse_entry_status (r : Str) (s p u : Int) (t : Str)
    (h : verify_parse_entry r = some (s, p, u, t)) :
    s = DEL_RCPT_STAT_OK ∨ s = DEL_RCPT_STAT_DEFER
      ∨ s = DEL_RCPT_STAT_BOUNCE ∨ s = DEL_RCPT_STAT_TODO := by
  unfold verify_parse_entry at h
  split at h
  · exact absurd h (by simp)
  · split at h
    · exact absurd h (by simp)
    · split at h
      · exact absurd h (by simp)
      · simp only [] at h
        split at h
        · next hcond =>
          simp only [Option.some.injEq, Prod.mk.injEq] at h
          obtain ⟨hs, _, _, _⟩ := h
          rw [hs] at hcond
          exact hcond
        · exact absurd h (by simp)

lemma query_work_status (cfg : VerifyCfg) (now : Int) (raw : Option Str) :
    (query_work cfg now raw).status = DEL_RCPT_STAT_OK
      ∨ (query_work cfg now raw).status = DEL_RCPT_STAT_DEFER
      ∨ (query_work cfg now raw).status = DEL_RCPT_STAT_BOUNCE
      ∨ (query_work cfg now raw).status = DEL_RCPT_STAT_TODO := by
  unfold query_work
  cases hw : parse_work raw with
  | none => right; right; right; rfl
  | some w =>
    by_cases he : entry_expired cfg now w = true
    · simp only [he, if_true]
      right; right; right; rfl
    · simp only [Bool.not_eq_true] at he
      simp only [he, Bool.false_eq_true, if_false]
      unfold parse_work at hw
      split at hw
      · exact absurd hw (by simp)
      · next r =>
        split at hw
        · exact absurd hw (by simp)
        · next s' p' u' t' hpe =>
          simp only [Option.some.injEq] at hw
          rw [← hw]
          exact parse_entry_status r s' p' u' t' hpe

lemma query_miss_todo (cfg : VerifyCfg) (now : Int) (raw : Option Str)
    (hm : query_miss cfg now raw = true) :
    query_work cfg now raw = todo_work := by
  unfold query_miss at hm
  unfold query_work
  cases hw : parse_work raw with
  | none => rfl
  | some w =>
    rw [hw] at hm
    simp at hm
    simp [hm]

/-- Claim C6: for every entry (status, probed, updated, text) with status
among OK, DEFER, BOUNCE, TODO and text free of newlines, parsing the
serialized "status:probed:updated:text" yields the entry back; the codec
splits only on the first three colons, so text containing colons is
recovered whole after the third colon. -/
theorem verify_entry_roundtrip (status probed updated : Int) (text : Str)
    (hs : status = DEL_RCPT_STAT_OK ∨ status = DEL_RCPT_STAT_DEFER
        ∨ status = DEL_RCPT_STAT_BOUNCE ∨ status = DEL_RCPT_STAT_TODO)
    (_hn : '\n' ∉ text) :
    verify_parse_entry (verify_make_entry status probed updated text)
      = some (status, probed, updated, text) :=
  parse_make_entry status probed updated text hs

/-- Witness for C6 at a concrete entry whose text itself contains colons. -/
theorem verify_entry_roundtrip_wit :
    (DEL_RCPT_STAT_OK = DEL_RCPT_STAT_OK ∨ DEL_RCPT_STAT_OK = DEL_RCPT_STAT_DEFER
      ∨ DEL_RCPT_STAT_OK = DEL_RCPT_STAT_BOUNCE ∨ DEL_RCPT_STAT_OK = DEL_RCPT_STAT_TODO)
    ∧ '\n' ∉ ['2', '5', '0', ' ', 'o', 'k', ':', 'x']
    ∧ verify_parse_entry
        (verify_make_entry DEL_RCPT_STAT_OK 0 110 ['2', '5', '0', ' ', 'o', 'k', ':', 'x'])
      = some (DEL_RCPT_STAT_OK, 0, 110, ['2', '5', '0', ' ', 'o', 'k', ':', 'x']) :=
  ⟨Or.inl rfl, by decide,
    verify_entry_roundtrip DEL_RCPT_STAT_OK 0 110 ['2', '5', '0', ' ', 'o', 'k', ':', 'x']
      (Or.inl rfl) (by decide)⟩

lemma split_at_of_count (l : Str) (h : 0 < l.count ':') :
    ∃ r, split_at l ':' = some (l.takeWhile (fun c => c != ':'), r)
      ∧ l.count ':' = r.count ':' + 1 := by
  induction l with
  | nil => simp at h
  | cons c t ih =>
    by_cases hc : c = ':'
    · subst hc
      refine ⟨t, ?_, ?_⟩
      · simp [split_at, List.takeWhile_cons]
      · simp [List.count_cons]
    · have hcount : (c :: t).count ':' = t.count ':' := by
        simp [List.count_cons, hc]
      rw [hcount] at h
      obtain ⟨r, hsp, hcnt⟩ := ih h
      refine ⟨r, ?_, ?_⟩
      · rw [split_at, if_neg hc, hsp]
        simp [List.takeWhile_cons, hc]
      · rw [hcount, hcnt]

/-- Claim C9: verify_parse_entry accepts every raw value that contains at
least three colons and whose leading field atoi-parses to one of the four
status codes, whatever the probed and updated fields hold: the C validity
guard (probed || updated) tests the output pointers, which are never null,
so it rejects nothing, and atol turns non-numeric field text into 0
instead of failing. -/
theorem verify_parse_guard_vacuous (raw : Str) (h3 : 3 ≤ raw.count ':')
    (hs : atoi (raw.takeWhile (fun c => c != ':')) = DEL_RCPT_STAT_OK
        ∨ atoi (raw.takeWhile (fun c => c != ':')) = DEL_RCPT_STAT_DEFER
        ∨ atoi (raw.takeWhile (fun c => c != ':')) = DEL_RCPT_STAT_BOUNCE
        ∨ atoi (raw.takeWhile (fun c => c != ':')) = DEL_RCPT_STAT_TODO) :
    ∃ probed updated text, verify_parse_entry raw
      = some (atoi (raw.takeWhile (fun c => c != ':')), probed, updated, text) := by
  obtain ⟨r1, hsp1, hc1⟩ := split_at_of_count raw (by omega)
  obtain ⟨r2, hsp2, hc2⟩ := split_at_of_count r1 (by omega)
  obtain ⟨r3, hsp3, _⟩ := split_at_of_count r2 (by omega)
  refine ⟨atoi (r1.takeWhile (fun c => c != ':')),
          atoi (r2.takeWhile (fun c => c != ':')), r3, ?_⟩
  unfold verify_parse_entry
  simp only [hsp1, hsp2, hsp3]
  rw [if_pos hs]

/-- Witness for C9: a raw value with garbage in the probed and updated
fields still parses, the numeric fields silently becoming 0. -/
theorem verify_parse_guard_vacuous_wit :
    3 ≤ (['4', ':', 'x', ':', 'y', ':', 'n'].count ':')
    ∧ (atoi (['4', ':', 'x', ':', 'y', ':', 'n'].takeWhile (fun c => c != ':'))
        = DEL_RCPT_STAT_OK
      ∨ atoi (['4', ':', 'x', ':', 'y', ':', 'n'].takeWhile (fun c => c != ':'))
        = DEL_RCPT_STAT_DEFER
      ∨ atoi (['4', ':', 'x', ':', 'y', ':', 'n'].takeWhile (fun c => c != ':'))
        = DEL_RCPT_STAT_BOUNCE
      ∨ atoi (['4', ':', 'x', ':', 'y', ':', 'n'].takeWhile (fun c => c != ':'))
        = DEL_RCPT_STAT_TODO)
    ∧ ∃ probed updated text, verify_parse_entry ['4', ':', 'x', ':', 'y', ':', 'n']
        = some (atoi (['4', ':', 'x', ':', 'y', ':', 'n'].takeWhile (fun c => c != ':')),
                probed, updated, text) :=
  ⟨by decide, Or.inr (Or.inl (by decide)),
    verify_parse_guard_vacuous ['4', ':', 'x', ':', 'y', ':', 'n'] (by decide)
      (Or.inr (Or.inl (by decide)))⟩

/-- Claim C10: once the address attribute of a QUERY scans, the reply's
top-level status attribute is always VRFY_STAT_OK, never BAD or FAIL,
whatever the cache holds and however probe submission fares; only the
addr_status and text fields vary. -/
theorem verify_query_reply_always_ok (cfg : VerifyCfg) (m : VerifyMap) (now : Int)
    (addr : Str) (probe_ok : Bool) :
    (verify_query_service cfg m now addr probe_ok).reply_status = VrfyStat.ok := rfl

/-- Claim C3: when the stored entry is absent, unparseable or stale, the
QUERY works on the default record (TODO, 0, 0, "Address verification in
progress"), the reply reports exactly that record, and the stored record
is deleted from the backing store exactly when a raw record existed and
negative caching is disabled. -/
theorem verify_query_miss_default (cfg : VerifyCfg) (m : VerifyMap) (now : Int)
    (addr : Str) (probe_ok : Bool)
    (hm : query_miss cfg now (dict_get m addr) = true) :
    (verify_query_service cfg m now addr probe_ok).work = todo_work
    ∧ (verify_query_service cfg m now addr probe_ok).reply_addr_status = DEL_RCPT_STAT_TODO
    ∧ (verify_query_service cfg m now addr probe_ok).reply_text = progressText
    ∧ ((verify_query_service cfg m now addr probe_ok).did_delete
        = ((dict_get m addr).isSome && !cfg.neg_cache)) := by
  have hw := query_miss_todo cfg now (dict_get m addr) hm
  refine ⟨?_, ?_, ?_, ?_⟩
  · rw [vqs_work, hw]
  · rw [vqs_reply_addr_status, hw]; rfl
  · rw [vqs_reply_text, hw]; rfl
  · rw [vqs_did_delete, hm]
    simp

/-- Witness for C3: a query for an address with no stored entry, negative
caching off. -/
theorem verify_query_miss_default_wit :
    query_miss ⟨100, 100, 100, 100, false⟩ 50 (dict_get [] ['a']) = true
    ∧ ((verify_query_service ⟨100, 100, 100, 100, false⟩ [] 50 ['a'] true).work = todo_work
      ∧ (verify_query_service ⟨100, 100, 100, 100, false⟩ [] 50 ['a'] true).reply_addr_status
          = DEL_RCPT_STAT_TODO
      ∧ (verify_query_service ⟨100, 100, 100, 100, false⟩ [] 50 ['a'] true).reply_text
          = progressText
      ∧ ((verify_query_service ⟨100, 100, 100, 100, false⟩ [] 50 ['a'] true).did_delete
          = ((dict_get ([] : VerifyMap) ['a']).isSome && !(⟨100, 100, 100, 100, false⟩ : VerifyCfg).neg_cache))) :=
  ⟨by decide, verify_query_miss_default ⟨100, 100, 100, 100, false⟩ [] 50 ['a'] true (by decide)⟩

/-- Claim C4: on the refresh path, the write-back of (status, probed=now,
updated, text) happens exactly when probe submission succeeded and
(updated is nonzero or negative caching is on); a failed submission leaves
the backing store untouched by the refresh step. -/
theorem verify_query_writeback_iff (cfg : VerifyCfg) (m : VerifyMap) (now : Int)
    (addr : Str) (probe_ok : Bool)
    (hr : (verify_query_service cfg m now addr probe_ok).refresh_needed = true) :
    ((verify_query_service cfg m now addr probe_ok).did_put
      = (probe_ok && (decide ((verify_query_service cfg m now addr probe_ok).work.updated ≠ 0)
          || cfg.neg_cache)))
    ∧ (probe_ok = false →
        (verify_query_service cfg m now addr probe_ok).map_out
          = (verify_query_service cfg m now addr probe_ok).map_mid)
    ∧ ((verify_query_service cfg m now addr probe_ok).did_put = true →
        (verify_query_service cfg m now addr probe_ok).map_out
          = dict_put (verify_query_service cfg m now addr probe_ok).map_mid addr
              (verify_make_entry (verify_query_service cfg m now addr probe_ok).work.status now
                (verify_query_service cfg m now addr probe_ok).work.updated
                (verify_query_service cfg m now addr probe_ok).work.text)) := by
  rw [vqs_refresh] at hr
  refine ⟨?_, ?_, ?_⟩
  · rw [vqs_did_put, vqs_work, hr]
    simp
  · intro hpr
    rw [vqs_map_out, vqs_did_put, hpr]
    simp
  · intro hput
    rw [vqs_map_out, hput, vqs_work]
    simp

/-- Witness for C4: a cold query at t=2000 with a short negative refresh
time makes the refresh path run. -/
theorem verify_query_writeback_iff_wit :
    (verify_query_service ⟨100, 100, 100, 1, true⟩ [] 2000 ['a'] true).refresh_needed = true
    ∧ (((verify_query_service ⟨100, 100, 100, 1, true⟩ [] 2000 ['a'] true).did_put
        = (true && (decide ((verify_query_service ⟨100, 100, 100, 1, true⟩ [] 2000 ['a'] true).work.updated ≠ 0)
            || (⟨100, 100, 100, 1, true⟩ : VerifyCfg).neg_cache)))
      ∧ (true = false →
          (verify_query_service ⟨100, 100, 100, 1, true⟩ [] 2000 ['a'] true).map_out
            = (verify_query_service ⟨100, 100, 100, 1, true⟩ [] 2000 ['a'] true).map_mid)
      ∧ ((verify_query_service ⟨100, 100, 100, 1, true⟩ [] 2000 ['a'] true).did_put = true →
          (verify_query_service ⟨100, 100, 100, 1, true⟩ [] 2000 ['a'] true).map_out
            = dict_put (verify_query_service ⟨100, 100, 100, 1, true⟩ [] 2000 ['a'] true).map_mid ['a']
                (verify_make_entry (verify_query_service ⟨100, 100, 100, 1, true⟩ [] 2000 ['a'] true).work.status 2000
                  (verify_query_service ⟨100, 100, 100, 1, true⟩ [] 2000 ['a'] true).work.updated
                  (verify_query_service ⟨100, 100, 100, 1, true⟩ [] 2000 ['a'] true).work.text))) :=
  ⟨by decide, verify_query_writeback_iff ⟨100, 100, 100, 1, true⟩ [] 2000 ['a'] true (by decide)⟩

lemma verify_update_protected (m : VerifyMap) (addr raw : Str) (now : Int)
    (st : Int) (text : Str)
    (hraw : dict_get m addr = some raw)
    (hok : status_from_raw_entry raw = DEL_RCPT_STAT_OK)
    (hst : st = DEL_RCPT_STAT_DEFER ∨ st = DEL_RCPT_STAT_BOUNCE) :
    verify_update_service m now addr st text = (VrfyStat.ok, m) := by
  have hro : raw_status_ok m addr = true := by
    unfold raw_status_ok
    rw [hraw]
    simp [hok]
  rcases hst with h | h <;> subst h <;>
    simp [verify_update_service, verify_stat2name, hro,
      DEL_RCPT_STAT_DEFER, DEL_RCPT_STAT_BOUNCE, DEL_RCPT_STAT_OK]

/-- A sequence of UPDATE requests for one address, applied in order; the
result is the final map and the reply statuses in request order. -/
def apply_updates (m : VerifyMap) (addr : Str) :
    List (Int × Int × Str) → VerifyMap × List VrfyStat
  | [] => (m, [])
  | (now, addr_status, text) :: rest =>
    let r := verify_update_service m now addr addr_status text
    let tail := apply_updates r.2 addr rest
    (tail.1, r.1 :: tail.2)

/-- Claim C1: a stored entry whose raw status field reads OK is immune to
DEFER/BOUNCE updates: each such UPDATE replies OK and leaves the map
untouched, so any sequence of them leaves the stored entry byte-for-byte
unchanged. -/
theorem verify_protective_update_sequence (m : VerifyMap) (addr raw : Str)
    (hraw : dict_get m addr = some raw)
    (hok : status_from_raw_entry raw = DEL_RCPT_STAT_OK)
    (upds : List (Int × Int × Str))
    (hall : ∀ u ∈ upds, u.2.1 = DEL_RCPT_STAT_DEFER ∨ u.2.1 = DEL_RCPT_STAT_BOUNCE) :
    apply_updates m addr upds = (m, upds.map (fun _ => VrfyStat.ok)) := by
  induction upds with
  | nil => rfl
  | cons u rest ih =>
    obtain ⟨now, st, text⟩ := u
    have hstep := verify_update_protected m addr raw now st text hraw hok
      (hall (now, st, text) (List.mem_cons_self _ _))
    simp only [apply_updates, hstep]
    rw [ih (fun x hx => hall x (List.mem_cons_of_mem _ hx))]
    rfl

/-- Witness for C1: an OK entry survives a DEFER then a BOUNCE update. -/
theorem verify_protective_update_sequence_wit :
    dict_get [(['a'], verify_make_entry DEL_RCPT_STAT_OK 0 110 ['o', 'k'])] ['a']
      = some (verify_make_entry DEL_RCPT_STAT_OK 0 110 ['o', 'k'])
    ∧ status_from_raw_entry (verify_make_entry DEL_RCPT_STAT_OK 0 110 ['o', 'k'])
      = DEL_RCPT_STAT_OK
    ∧ apply_updates [(['a'], verify_make_entry DEL_RCPT_STAT_OK 0 110 ['o', 'k'])] ['a']
        [(120, DEL_RCPT_STAT_DEFER, ['x']), (130, DEL_RCPT_STAT_BOUNCE, ['y'])]
      = ([(['a'], verify_make_entry DEL_RCPT_STAT_OK 0 110 ['o', 'k'])],
         [VrfyStat.ok, VrfyStat.ok]) :=
  ⟨by decide, by decide,
    verify_protective_update_sequence
      [(['a'], verify_make_entry DEL_RCPT_STAT_OK 0 110 ['o', 'k'])] ['a']
      (verify_make_entry DEL_RCPT_STAT_OK 0 110 ['o', 'k']) (by decide) (by decide)
      [(120, DEL_RCPT_STAT_DEFER, ['x']), (130, DEL_RCPT_STAT_BOUNCE, ['y'])]
      (by decide)⟩

/-- Counterexample to claim C8 as stated: a verifier UPDATE whose attribute
scan fails produces no reply at all, in particular no BAD reply, because
verify_update_service only answers when attr_scan returned 3. -/
theorem verify_scanfail_no_reply_cex :
    VrfyStat.bad ∉
      (verify_service ⟨1, 1, 1, 1, true⟩ [] 0 (VerifyReq.update none)).1 := by
  decide

/-- Claim C8, amended: an unknown request name or an invalid addr_status on
UPDATE draws a BAD reply and the handler returns normally, but a verifier
UPDATE or QUERY whose attribute scan fails returns without printing any
reply. -/
theorem verify_malformed_requests (cfg : VerifyCfg) (m : VerifyMap) (now : Int)
    (name addr text : Str) (st : Int) (pr : Bool)
    (hst : verify_stat2name st = none) :
    (verify_service cfg m now (VerifyReq.other name)).1 = [VrfyStat.bad]
    ∧ verify_service cfg m now (VerifyReq.update (some (addr, st, text)))
      = ([VrfyStat.bad], m)
    ∧ (verify_service cfg m now (VerifyReq.update none)).1 = []
    ∧ (verify_service cfg m now (VerifyReq.query none pr)).1 = [] := by
  refine ⟨rfl, ?_, rfl, rfl⟩
  simp only [verify_service, verify_update_service, hst]

/-- Witness for C8: the TODO code is not a valid UPDATE status. -/
theorem verify_malformed_requests_wit :
    verify_stat2name DEL_RCPT_STAT_TODO = none
    ∧ ((verify_service ⟨1, 1, 1, 1, true⟩ [] 0 (VerifyReq.other ['z'])).1 = [VrfyStat.bad]
      ∧ verify_service ⟨1, 1, 1, 1, true⟩ [] 0
          (VerifyReq.update (some (['a'], DEL_RCPT_STAT_TODO, ['t'])))
        = ([VrfyStat.bad], [])
      ∧ (verify_service ⟨1, 1, 1, 1, true⟩ [] 0 (VerifyReq.update none)).1 = []
      ∧ (verify_service ⟨1, 1, 1, 1, true⟩ [] 0 (VerifyReq.query none true)).1 = []) :=
  ⟨by decide, verify_malformed_requests ⟨1, 1, 1, 1, true⟩ [] 0 ['z'] ['a'] ['t']
    DEL_RCPT_STAT_TODO true (by decide)⟩

lemma parse_work_make_entry (s p u : Int) (t : Str)
    (hs : s = DEL_RCPT_STAT_OK ∨ s = DEL_RCPT_STAT_DEFER
        ∨ s = DEL_RCPT_STAT_BOUNCE ∨ s = DEL_RCPT_STAT_TODO) :
    parse_work (some (verify_make_entry s p u t)) = some ⟨s, p, u, t⟩ := by
  unfold parse_work
  simp only [parse_make_entry s p u t hs]

lemma query_on_fresh_entry (cfg : VerifyCfg) (m : VerifyMap) (now : Int)
    (addr : Str) (pr : Bool) (s p u : Int) (t : Str)
    (hget : dict_get m addr = some (verify_make_entry s p u t))
    (hs : s = DEL_RCPT_STAT_OK ∨ s = DEL_RCPT_STAT_DEFER
        ∨ s = DEL_RCPT_STAT_BOUNCE ∨ s = DEL_RCPT_STAT_TODO)
    (hfresh : ¬ now - p > PROBE_TTL) :
    (verify_query_service cfg m now addr pr).refresh_needed = false
    ∧ (verify_query_service cfg m now addr pr).work = ⟨s, p, u, t⟩ := by
  have hpw : parse_work (dict_get m addr) = some ⟨s, p, u, t⟩ := by
    rw [hget]
    exact parse_work_make_entry s p u t hs
  have hexp : entry_expired cfg now ⟨s, p, u, t⟩ = false := by
    unfold entry_expired
    simp only [decide_eq_false_iff_not]
    intro hand
    exact hfresh hand.1
  have hwork : query_work cfg now (dict_get m addr) = ⟨s, p, u, t⟩ := by
    unfold query_work
    rw [hpw]
    simp [hexp]
  constructor
  · rw [vqs_refresh, hwork]
    unfold refresh_test
    simp only [decide_eq_false_iff_not]
    intro hand
    exact hfresh hand.1
  · rw [vqs_work, hwork]

/-- Counterexample to claim C2 as stated: with negative_cache_enabled =
false, a cold query submits a probe but persists nothing (updated = 0
suppresses the write-back), so a second query only 500 seconds later
submits a second probe. -/
theorem verify_refresh_bound_cex :
    ((verify_query_service ⟨2592000, 604800, 259200, 10800, false⟩ [] 20000
        ['u', '@', 'x'] true).refresh_needed = true)
    ∧ ((verify_query_service ⟨2592000, 604800, 259200, 10800, false⟩
        (verify_query_service ⟨2592000, 604800, 259200, 10800, false⟩ [] 20000
          ['u', '@', 'x'] true).map_out 20500 ['u', '@', 'x'] true).refresh_needed = true)
    ∧ (20500 - 20000 < PROBE_TTL) := by
  decide

/-- Claim C2, amended: with negative caching enabled and the first query's
probe submission succeeding, two QUERYs for one address less than
PROBE_TTL seconds apart with no intervening UPDATE submit at most one
probe between them, and when the first was a miss the second still
reports TODO. (As stated the claim fails for negative_cache_enabled =
false: nothing is written back after a miss, so the second query probes
again.) -/
theorem verify_refresh_bound_amended (cfg : VerifyCfg) (m0 : VerifyMap)
    (addr : Str) (t1 t2 : Int) (pr2 : Bool)
    (hc : cfg.neg_cache = true) (h12 : t1 ≤ t2) (hd : t2 - t1 < PROBE_TTL) :
    (¬ ((verify_query_service cfg m0 t1 addr true).refresh_needed = true
        ∧ (verify_query_service cfg (verify_query_service cfg m0 t1 addr true).map_out
            t2 addr pr2).refresh_needed = true))
    ∧ (dict_get m0 addr = none →
        (verify_query_service cfg (verify_query_service cfg m0 t1 addr true).map_out
            t2 addr pr2).reply_addr_status = DEL_RCPT_STAT_TODO) := by
  have hmid : (verify_query_service cfg m0 t1 addr true).map_mid
      = (if (verify_query_service cfg m0 t1 addr true).did_delete
         then dict_del m0 addr else m0) := vqs_map_mid cfg m0 t1 addr true
  constructor
  · rintro ⟨ha1, ha2⟩
    rw [vqs_refresh] at ha1
    -- with probe_ok = true and negative caching on, the refresh writes back
    have hput : (verify_query_service cfg m0 t1 addr true).did_put = true := by
      rw [vqs_did_put, ha1, hc]
      simp
    have hdel : (verify_query_service cfg m0 t1 addr true).did_delete = false := by
      rw [vqs_did_delete, hc]
      simp
    have hout : (verify_query_service cfg m0 t1 addr true).map_out
        = dict_put m0 addr
            (verify_make_entry (query_work cfg t1 (dict_get m0 addr)).status t1
              (query_work cfg t1 (dict_get m0 addr)).updated
              (query_work cfg t1 (dict_get m0 addr)).text) := by
      rw [vqs_map_out, hput, hmid, hdel]
      simp
    have hget2 : dict_get (verify_query_service cfg m0 t1 addr true).map_out addr
        = some (verify_make_entry (query_work cfg t1 (dict_get m0 addr)).status t1
            (query_work cfg t1 (dict_get m0 addr)).updated
            (query_work cfg t1 (dict_get m0 addr)).text) := by
      rw [hout, dict_get_put_self]
    have hforbid := query_on_fresh_entry cfg
      (verify_query_service cfg m0 t1 addr true).map_out t2 addr pr2
      (query_work cfg t1 (dict_get m0 addr)).status t1
      (query_work cfg t1 (dict_get m0 addr)).updated
      (query_work cfg t1 (dict_get m0 addr)).text
      hget2 (query_work_status cfg t1 (dict_get m0 addr))
      (by unfold PROBE_TTL at hd ⊢; omega)
    rw [hforbid.1] at ha2
    exact absurd ha2 (by simp)
  · intro hnone
    have hwork1 : query_work cfg t1 (dict_get m0 addr) = todo_work := by
      rw [hnone]
      rfl
    have hdel : (verify_query_service cfg m0 t1 addr true).did_delete = false := by
      rw [vqs_did_delete, hnone]
      simp
    by_cases hput : (verify_query_service cfg m0 t1 addr true).did_put = true
    · have hout : (verify_query_service cfg m0 t1 addr true).map_out
          = dict_put m0 addr
              (verify_make_entry todo_work.status t1 todo_work.updated todo_work.text) := by
        rw [vqs_map_out, hput, hmid, hdel, hwork1]
        simp
      have hget2 : dict_get (verify_query_service cfg m0 t1 addr true).map_out addr
          = some (verify_make_entry todo_work.status t1 todo_work.updated todo_work.text) := by
        rw [hout, dict_get_put_self]
      have h2 := query_on_fresh_entry cfg
        (verify_query_service cfg m0 t1 addr true).map_out t2 addr pr2
        todo_work.status t1 todo_work.updated todo_work.text hget2
        (Or.inr (Or.inr (Or.inr rfl)))
        (by unfold PROBE_TTL at hd ⊢; omega)
      rw [vqs_reply_addr_status, ← vqs_work, h2.2]
      rfl
    · have hout : (verify_query_service cfg m0 t1 addr true).map_out = m0 := by
        rw [vqs_map_out, hmid, hdel]
        simp only [Bool.false_eq_true, if_false]
        rw [if_neg hput]
      rw [vqs_reply_addr_status, hout, hnone]
      rfl

/-- Witness for the amended C2 at a concrete configuration with negative
caching on: a cold query at t=2000 probes, the repeat at t=2500 does not. -/
theorem verify_refresh_bound_amended_wit :
    ((⟨100, 100, 100, 1, true⟩ : VerifyCfg).neg_cache = true
      ∧ (2000 : Int) ≤ 2500 ∧ (2500 : Int) - 2000 < PROBE_TTL)
    ∧ ((¬ ((verify_query_service ⟨100, 100, 100, 1, true⟩ [] 2000 ['a'] true).refresh_needed = true
        ∧ (verify_query_service ⟨100, 100, 100, 1, true⟩
            (verify_query_service ⟨100, 100, 100, 1, true⟩ [] 2000 ['a'] true).map_out
            2500 ['a'] true).refresh_needed = true))
      ∧ (dict_get ([] : VerifyMap) ['a'] = none →
          (verify_query_service ⟨100, 100, 100, 1, true⟩
            (verify_query_service ⟨100, 100, 100, 1, true⟩ [] 2000 ['a'] true).map_out
            2500 ['a'] true).reply_addr_status = DEL_RCPT_STAT_TODO)) :=
  ⟨⟨rfl, by decide, by decide⟩,
    verify_refresh_bound_amended ⟨100, 100, 100, 1, true⟩ [] ['a'] 2000 2500 true
      rfl (by decide) (by decide)⟩

lemma hasPfx_le_length : ∀ (p s : Str), hasPfx p s = true → p.length ≤ s.length
  | [], s, _ => Nat.zero_le _
  | p :: ps, [], h => by simp [hasPfx] at h
  | p :: ps, c :: cs, h => by
    rw [hasPfx, Bool.and_eq_true] at h
    simpa using Nat.succ_le_succ (hasPfx_le_length ps cs h.2)

lemma strip_allAux_no (f : Nat) (s : Str) (hp : hasPfx proxyColon s = false) :
    strip_allAux f s = s := by
  cases f with
  | zero => rfl
  | succ n => simp [strip_allAux, hp]

lemma strip_allAux_fuel (f : Nat) : ∀ (g : Nat) (s : Str),
    s.length ≤ f → s.length ≤ g → strip_allAux f s = strip_allAux g s := by
  induction f with
  | zero =>
    intro g s hf _
    have hs : s = [] := List.length_eq_zero.mp (Nat.le_zero.mp hf)
    subst hs
    rw [strip_allAux_no 0 [] rfl, strip_allAux_no g [] rfl]
  | succ n ih =>
    intro g s hf hg
    by_cases hp : hasPfx proxyColon s = true
    · have hlen : 6 ≤ s.length := hasPfx_le_length proxyColon s hp
      obtain ⟨m, rfl⟩ : ∃ m, g = m + 1 := ⟨g - 1, by omega⟩
      simp only [strip_allAux, hp, if_true]
      have hdl : (s.drop 6).length = s.length - 6 := by simp
      exact ih m (s.drop 6) (by omega) (by omega)
    · rw [Bool.not_eq_true] at hp
      rw [strip_allAux_no _ s hp, strip_allAux_no g s hp]

lemma strip_all_no (s : Str) (hp : hasPfx proxyColon s = false) : strip_all s = s :=
  strip_allAux_no s.length s hp

lemma hasPfx_append_self (s : Str) : hasPfx proxyColon (proxyColon ++ s) = true := by
  simp [proxyColon, hasPfx]

lemma drop_six_append (s : Str) : (proxyColon ++ s).drop 6 = s := rfl

lemma strip_all_cons (s : Str) : strip_all (proxyColon ++ s) = strip_all s := by
  unfold strip_all
  obtain ⟨g, hg, hge⟩ : ∃ g, (proxyColon ++ s).length = g + 1 ∧ s.length ≤ g := by
    refine ⟨s.length + 5, ?_, by omega⟩
    simp [proxyColon]
  rw [hg]
  simp only [strip_allAux, hasPfx_append_self, if_true, drop_six_append]
  exact strip_allAux_fuel g s.length s hge le_rfl

/-- N copies of the "proxy:" layer in front of a table reference. -/
def repeat_pfx : Nat → Str
  | 0 => []
  | n + 1 => proxyColon ++ repeat_pfx n

lemma strip_all_rep (N : Nat) (tn : Str) (hp : hasPfx proxyColon tn = false) :
    strip_all (repeat_pfx N ++ tn) = tn := by
  induction N with
  | zero => simpa [repeat_pfx] using strip_all_no tn hp
  | succ n ih => rw [repeat_pfx, List.append_assoc, strip_all_cons, ih]

lemma insert_tok_mem (acc : List Str) (tok x : Str) (hx : x ∈ insert_tok acc tok) :
    x ∈ acc ∨ ':' ∈ x := by
  simp only [insert_tok] at hx
  split_ifs at hx with h1 h2
  · exact Or.inl hx
  · rcases List.mem_append.mp hx with h | h
    · exact Or.inl h
    · rw [List.mem_singleton] at h
      subst h
      exact Or.inr h2.1
  · exact Or.inl hx

lemma foldl_insert_mem (toks : List Str) (acc : List Str) (x : Str)
    (hx : x ∈ toks.foldl insert_tok acc) : x ∈ acc ∨ ':' ∈ x := by
  induction toks generalizing acc with
  | nil => exact Or.inl hx
  | cons t ts ih =>
    rcases ih (insert_tok acc t) hx with h | h
    · exact insert_tok_mem acc t x h
    · exact Or.inr h

lemma build_allow_mem (cfg : Str) (x : Str) (hx : x ∈ build_allow_list cfg) :
    ':' ∈ x := by
  rcases foldl_insert_mem (tokenize cfg) [] x hx with h | h
  · simp at h
  · exact h

/-- Claim C5: a table reference made of N leading "proxy:" layers over a
canonical type:name is accepted by the proxy gate exactly when the
canonical form sits on the allow-list built at post-jail init; a canonical
form without an inner colon draws PROXY_STAT_BAD, one off the list draws
PROXY_STAT_DENY, and an OPEN or LOOKUP obtains a handle exactly on
acceptance. -/
theorem proxy_allowlist_closure (cfg tn : Str) (N : Nat)
    (hp : hasPfx proxyColon tn = false) :
    (proxy_map_acl (build_allow_list cfg) (repeat_pfx N ++ tn) = ProxyStat.ok
      ↔ tn ∈ build_allow_list cfg)
    ∧ (':' ∉ tn →
        proxy_map_acl (build_allow_list cfg) (repeat_pfx N ++ tn) = ProxyStat.bad)
    ∧ (':' ∈ tn → tn ∉ build_allow_list cfg →
        proxy_map_acl (build_allow_list cfg) (repeat_pfx N ++ tn) = ProxyStat.deny)
    ∧ (∀ (env : Str → Nat → DictHandle) (st : ProxyState) (flags : Nat),
        ((proxy_map_find env (build_allow_list cfg) st (repeat_pfx N ++ tn) flags).1.isSome
          = true ↔ tn ∈ build_allow_list cfg)) := by
  have hstrip := strip_all_rep N tn hp
  have hacl : proxy_map_acl (build_allow_list cfg) (repeat_pfx N ++ tn)
      = (if ':' ∉ tn then ProxyStat.bad
         else if tn ∉ build_allow_list cfg then ProxyStat.deny else ProxyStat.ok) := by
    simp only [proxy_map_acl, hstrip]
  by_cases hc : ':' ∈ tn
  · by_cases hm : tn ∈ build_allow_list cfg
    · have hok : proxy_map_acl (build_allow_list cfg) (repeat_pfx N ++ tn)
          = ProxyStat.ok := by
        rw [hacl, if_neg (not_not_intro hc), if_neg (not_not_intro hm)]
      refine ⟨⟨fun _ => hm, fun _ => hok⟩, fun h => absurd hc h, fun _ h => absurd hm h, ?_⟩
      intro env st flags
      refine ⟨fun _ => hm, fun _ => ?_⟩
      simp only [proxy_map_find, hok, hstrip]
      cases hdh : dict_handle st (composite_key tn flags) <;> simp [hdh]
    · have hdeny : proxy_map_acl (build_allow_list cfg) (repeat_pfx N ++ tn)
          = ProxyStat.deny := by
        rw [hacl, if_neg (not_not_intro hc), if_pos hm]
      refine ⟨⟨fun h => ?_, fun h => absurd h hm⟩, fun h => absurd hc h,
        fun _ _ => hdeny, ?_⟩
      · rw [hdeny] at h
        exact absurd h (by decide)
      · intro env st flags
        simp only [proxy_map_find, hdeny, hstrip]
        simp [hm]
  · have hbad : proxy_map_acl (build_allow_list cfg) (repeat_pfx N ++ tn)
        = ProxyStat.bad := by
      rw [hacl, if_pos hc]
    refine ⟨⟨fun h => ?_, fun hmem => absurd (build_allow_mem cfg tn hmem) hc⟩,
      fun _ => hbad, fun h => absurd h hc, ?_⟩
    · rw [hbad] at h
      exact absurd h (by decide)
    · intro env st flags
      simp only [proxy_map_find, hbad, hstrip]
      simp
      intro hmem
      exact absurd (build_allow_mem cfg tn hmem) hc

/-- Witness for C5: the configuration approves hash:/etc/a through a
doubly wrapped token, and the request carries two "proxy:" layers. -/
theorem proxy_allowlist_closure_wit :
    hasPfx proxyColon ['h', ':', 'a'] = false
    ∧ ((proxy_map_acl (build_allow_list
          (['p','r','o','x','y',':','h',':','a'])) (repeat_pfx 2 ++ ['h', ':', 'a'])
        = ProxyStat.ok ↔ ['h', ':', 'a'] ∈ build_allow_list
          (['p','r','o','x','y',':','h',':','a']))
      ∧ (':' ∉ ['h', ':', 'a'] →
          proxy_map_acl (build_allow_list (['p','r','o','x','y',':','h',':','a']))
            (repeat_pfx 2 ++ ['h', ':', 'a']) = ProxyStat.bad)
      ∧ (':' ∈ ['h', ':', 'a'] → ['h', ':', 'a'] ∉ build_allow_list
            (['p','r','o','x','y',':','h',':','a']) →
          proxy_map_acl (build_allow_list (['p','r','o','x','y',':','h',':','a']))
            (repeat_pfx 2 ++ ['h', ':', 'a']) = ProxyStat.deny)
      ∧ (∀ (env : Str → Nat → DictHandle) (st : ProxyState) (flags : Nat),
          ((proxy_map_find env (build_allow_list (['p','r','o','x','y',':','h',':','a']))
              st (repeat_pfx 2 ++ ['h', ':', 'a']) flags).1.isSome = true
            ↔ ['h', ':', 'a'] ∈ build_allow_list (['p','r','o','x','y',':','h',':','a'])))) :=
  ⟨by decide, proxy_allowlist_closure (['p','r','o','x','y',':','h',':','a'])
    ['h', ':', 'a'] 2 (by decide)⟩

/-- The number of handle-cache entries stored under a key. -/
def key_count {α : Type} : List (Str × α) → Str → Nat
  | [], _ => 0
  | (k', _) :: t, k => (if k' = k then 1 else 0) + key_count t k

lemma key_count_put {α : Type} (l : List (Str × α)) (k : Str) (v : α)
    (h : key_count l k ≤ 1) : key_count (dict_put l k v) k = 1 := by
  induction l with
  | nil => simp [dict_put, key_count]
  | cons p t ih =>
    obtain ⟨k', w⟩ := p
    by_cases hk : k' = k
    · subst hk
      simp [dict_put, key_count] at h ⊢
      omega
    · simp only [dict_put, if_neg hk, key_count] at h ⊢
      have hrec := ih (by omega)
      omega

/-- Claim C7: two OPEN requests with the same (type:name, flags) report the
same capability flags, leave exactly one handle-cache entry under the
composite key, and the second request opens no additional table. -/
theorem proxymap_handle_reuse (env : Str → Nat → DictHandle) (allow : List Str)
    (st0 : ProxyState) (tbl : Str) (flags : Nat)
    (hc : ':' ∈ strip_all tbl) (ha : strip_all tbl ∈ allow)
    (hk : key_count st0.handles (composite_key (strip_all tbl) flags) ≤ 1) :
    ((proxymap_open_service env allow st0 (some (tbl, flags))).1.2
      = (proxymap_open_service env allow
          (proxymap_open_service env allow st0 (some (tbl, flags))).2
          (some (tbl, flags))).1.2)
    ∧ key_count ((proxymap_open_service env allow
          (proxymap_open_service env allow st0 (some (tbl, flags))).2
          (some (tbl, flags))).2).handles
        (composite_key (strip_all tbl) flags) = 1
    ∧ ((proxymap_open_service env allow
          (proxymap_open_service env allow st0 (some (tbl, flags))).2
          (some (tbl, flags))).2).opens
      = ((proxymap_open_service env allow st0 (some (tbl, flags))).2).opens := by
  have hacl : proxy_map_acl allow tbl = ProxyStat.ok := by
    simp only [proxy_map_acl]
    rw [if_neg (not_not_intro hc), if_neg (not_not_intro ha)]
  cases hdh : dict_handle st0 (composite_key (strip_all tbl) flags) with
  | some d =>
    have h1 : proxymap_open_service env allow st0 (some (tbl, flags))
        = ((ProxyStat.ok, d.flags),
           dict_register st0 (composite_key (strip_all tbl) flags) d) := by
      simp only [proxymap_open_service, proxy_map_find, hacl, hdh]
    have hg1 : dict_handle (dict_register st0 (composite_key (strip_all tbl) flags) d)
        (composite_key (strip_all tbl) flags) = some d := by
      simp only [dict_handle, dict_register]
      exact dict_get_put_self _ _ _
    have h2 : proxymap_open_service env allow
        (dict_register st0 (composite_key (strip_all tbl) flags) d) (some (tbl, flags))
        = ((ProxyStat.ok, d.flags),
           dict_register (dict_register st0 (composite_key (strip_all tbl) flags) d)
             (composite_key (strip_all tbl) flags) d) := by
      simp only [proxymap_open_service, proxy_map_find, hacl, hg1]
    rw [h1, h2]
    refine ⟨rfl, ?_, rfl⟩
    simp only [dict_register]
    exact key_count_put _ _ _ (le_of_eq (key_count_put _ _ _ hk))
  | none =>
    have h1 : proxymap_open_service env allow st0 (some (tbl, flags))
        = ((ProxyStat.ok, (env (strip_all tbl) flags).flags),
           dict_register { st0 with opens := st0.opens + 1 }
             (composite_key (strip_all tbl) flags) (env (strip_all tbl) flags)) := by
      simp only [proxymap_open_service, proxy_map_find, hacl, hdh]
    have hg1 : dict_handle (dict_register { st0 with opens := st0.opens + 1 }
          (composite_key (strip_all tbl) flags) (env (strip_all tbl) flags))
        (composite_key (strip_all tbl) flags) = some (env (strip_all tbl) flags) := by
      simp only [dict_handle, dict_register]
      exact dict_get_put_self _ _ _
    have h2 : proxymap_open_service env allow
        (dict_register { st0 with opens := st0.opens + 1 }
          (composite_key (strip_all tbl) flags) (env (strip_all tbl) flags))
        (some (tbl, flags))
        = ((ProxyStat.ok, (env (strip_all tbl) flags).flags),
           dict_register
             (dict_register { st0 with opens := st0.opens + 1 }
               (composite_key (strip_all tbl) flags) (env (strip_all tbl) flags))
             (composite_key (strip_all tbl) flags) (env (strip_all tbl) flags)) := by
      simp only [proxymap_open_service, proxy_map_find, hacl, hg1]
    rw [h1, h2]
    refine ⟨rfl, ?_, rfl⟩
    simp only [dict_register]
    exact key_count_put _ _ _ (le_of_eq (key_count_put _ _ _ (by simpa [key_count] using hk)))

/-- Witness for C7: a fresh proxy process opens hash:/a once for two OPEN
requests. -/
theorem proxymap_handle_reuse_wit :
    (':' ∈ strip_all ['h', ':', 'a']
      ∧ strip_all ['h', ':', 'a'] ∈ [['h', ':', 'a']]
      ∧ key_count (ProxyState.handles ⟨[], 0⟩)
          (composite_key (strip_all ['h', ':', 'a']) 0) ≤ 1)
    ∧ (((proxymap_open_service (fun _ _ => ⟨7⟩) [['h', ':', 'a']] ⟨[], 0⟩
          (some (['h', ':', 'a'], 0))).1.2
        = (proxymap_open_service (fun _ _ => ⟨7⟩) [['h', ':', 'a']]
            (proxymap_open_service (fun _ _ => ⟨7⟩) [['h', ':', 'a']] ⟨[], 0⟩
              (some (['h', ':', 'a'], 0))).2
            (some (['h', ':', 'a'], 0))).1.2)
      ∧ key_count ((proxymap_open_service (fun _ _ => ⟨7⟩) [['h', ':', 'a']]
            (proxymap_open_service (fun _ _ => ⟨7⟩) [['h', ':', 'a']] ⟨[], 0⟩
              (some (['h', ':', 'a'], 0))).2
            (some (['h', ':', 'a'], 0))).2).handles
          (composite_key (strip_all ['h', ':', 'a']) 0) = 1
      ∧ ((proxymap_open_service (fun _ _ => ⟨7⟩) [['h', ':', 'a']]
            (proxymap_open_service (fun _ _ => ⟨7⟩) [['h', ':', 'a']] ⟨[], 0⟩
              (some (['h', ':', 'a'], 0))).2
            (some (['h', ':', 'a'], 0))).2).opens
        = ((proxymap_open_service (fun _ _ => ⟨7⟩) [['h', ':', 'a']] ⟨[], 0⟩
            (some (['h', ':', 'a'], 0))).2).opens) :=
  ⟨⟨by decide, by decide, by decide⟩,
    proxymap_handle_reuse (fun _ _ => ⟨7⟩) [['h', ':', 'a']] ⟨[], 0⟩ ['h', ':', 'a'] 0
      (by decide) (by decide) (by decide)⟩
